import Mathlib

/-!
Verification of the AirGradient display-control firmware
(`src/arduino/airgraident_displaycontrol.ino`) against its natural-language
specification.

The firmware's state and operations are shallowly embedded below:

* the PM2.5 → US-AQI conversion (`PM_TO_AQI_US`, `calcAQI`), embedded over
  exact integer arithmetic in tenths (the source works on `float`, but for the
  constant breakpoints used and integer `pm` inputs every intermediate value
  is exactly a multiple of 1/10 up to a relative error below 1e-6, far smaller
  than the distance of any intermediate to a rounding/truncation boundary, so
  exact tenths arithmetic reproduces the float results bit-for-bit);
* the global display state (`S`) and the display tick (`updateOLED`) together
  with the slot scan loop (`scanLoop`);
* the HTTP handlers `HandleDisplayUpload` and `HandleDisplaySet`;
* the metrics serializer `GenerateMetrics`.

Machine arithmetic: `currentMillis`, `previousOled`, `display_last_set` and
`last_updated` are 32-bit values on the ESP8266; unsigned subtraction is
embedded as `wsub` (subtraction modulo 2^32).
-/

/-- 2^32, the modulus of `unsigned long` / `unsigned int` arithmetic on the
ESP8266 target. -/
def U32 : ℕ := 4294967296

/-- C unsigned 32-bit subtraction `a - b` on natural-number representatives. -/
def wsub (a b : ℕ) : ℕ := (a % U32 + (U32 - b % U32)) % U32

/-- Conversion of a C `int` value to `unsigned int` (reduction mod 2^32). -/
def intToU32 (z : ℤ) : ℕ := (z % (U32 : ℤ)).toNat

-- ---------------------------------------------------------------------------
-- AQI conversion (source lines 589-627)
-- ---------------------------------------------------------------------------

/-- `round(p / q)` for `q > 0`, rounding half away from zero, as computed by
C `roundf` on the (exactly represented) quotient. -/
def roundAway (p q : ℤ) : ℤ :=
  if 0 ≤ p then Int.fdiv (2 * p + q) (2 * q) else -Int.fdiv (2 * (-p) + q) (2 * q)

/-- C `int(...)` cast of an exact value given in tenths: division by 10
truncating toward zero. -/
def truncTenths (v : ℤ) : ℤ :=
  if 0 ≤ v then Int.fdiv v 10 else -Int.fdiv (-v) 10

/-- `calcAQI(Cp, Ih, Il, BPh, BPl)` from the source, with the breakpoint
bounds `BPh`, `BPl` supplied in tenths (e.g. `5004` for `500.4`).  The source
computes `int(round((Ih-Il)/(BPh-BPl)) * (Cp-BPl) + Il)` in `float`; here the
same value is computed exactly in tenths. -/
def calcAQI (Cp Ih Il BPh10 BPl10 : ℤ) : ℤ :=
  let slope := roundAway (10 * (Ih - Il)) (BPh10 - BPl10)
  truncTenths (slope * (10 * Cp - BPl10) + 10 * Il)

/-- `PM_TO_AQI_US(pm)` from the source: sentinel propagation for negative
input, cap at 500 above 1000, and otherwise band selection by strict `>`
comparisons against the descending thresholds 350.5, 250.5, 150.5, 55.5,
35.5, 12.1 (here in tenths, `10 * pm > threshold10`). -/
def PM_TO_AQI_US (pm : ℤ) : ℤ :=
  if pm < 0 then pm
  else if pm > 1000 then 500
  else if 10 * pm > 3505 then calcAQI pm 500 401 5004 3505
  else if 10 * pm > 2505 then calcAQI pm 400 301 3504 2505
  else if 10 * pm > 1505 then calcAQI pm 300 201 2504 1505
  else if 10 * pm > 555 then calcAQI pm 200 151 1504 555
  else if 10 * pm > 355 then calcAQI pm 150 101 554 355
  else if 10 * pm > 121 then calcAQI pm 100 51 354 121
  else calcAQI pm 50 0 120 0

example : PM_TO_AQI_US 0 = 0 := by decide
example : PM_TO_AQI_US 12 = 48 := by decide
example : PM_TO_AQI_US 13 = 52 := by decide
example : PM_TO_AQI_US 150 = 245 := by decide
example : PM_TO_AQI_US 151 = 201 := by decide
example : PM_TO_AQI_US (-1) = -1 := by decide
example : PM_TO_AQI_US 2000 = 500 := by decide

-- ---------------------------------------------------------------------------
-- Reference (spec-side) AQI definition over ℚ, following spec §4.2 verbatim
-- ---------------------------------------------------------------------------

/-- C `int(...)` truncation toward zero of a rational value. -/
def specTrunc (q : ℚ) : ℤ := if 0 ≤ q then ⌊q⌋ else -⌊-q⌋

/-- One band of the reference definition from spec §4.2:
`aqi = int(round((I_high - I_low) / (BP_high - BP_low)) * (Cp - BP_low) + I_low)`,
with the rounding applied to the slope term only. -/
def bandAQI (Cp Ih Il : ℤ) (BPh BPl : ℚ) : ℤ :=
  specTrunc ((round (((Ih : ℚ) - (Il : ℚ)) / (BPh - BPl)) : ℤ) * ((Cp : ℚ) - BPl) + (Il : ℚ))

/-- Reference definition of the AQI conversion, written from the spec's words:
sentinel propagation below 0, cap at 500 above 1000, and band selection by
strict `>` comparisons against the descending thresholds 350.5, 250.5, 150.5,
55.5, 35.5, 12.1 (a value equal to a threshold falls into the lower band). -/
def pm_to_aqi_spec (pm : ℤ) : ℤ :=
  if pm < 0 then pm
  else if pm > 1000 then 500
  else if (pm : ℚ) > 350.5 then bandAQI pm 500 401 500.4 350.5
  else if (pm : ℚ) > 250.5 then bandAQI pm 400 301 350.4 250.5
  else if (pm : ℚ) > 150.5 then bandAQI pm 300 201 250.4 150.5
  else if (pm : ℚ) > 55.5 then bandAQI pm 200 151 150.4 55.5
  else if (pm : ℚ) > 35.5 then bandAQI pm 150 101 55.4 35.5
  else if (pm : ℚ) > 12.1 then bandAQI pm 100 51 35.4 12.1
  else bandAQI pm 50 0 12 0

theorem floor_int_div_q (p q : ℤ) (hq : 0 < q) : ⌊(p : ℚ) / (q : ℚ)⌋ = Int.fdiv p q := by
  have h1 : ((q.toNat : ℕ) : ℚ) = (q : ℚ) := by
    rw [show ((q.toNat : ℕ) : ℚ) = ((q.toNat : ℤ) : ℚ) by push_cast; ring,
      Int.toNat_of_nonneg hq.le]
  rw [← h1, Rat.floor_intCast_div_natCast, Int.fdiv_eq_ediv _ hq.le,
    Int.toNat_of_nonneg hq.le]

theorem round_int_div_q (p q : ℤ) (hq : 0 < q) (hp : 0 ≤ p) :
    round ((p : ℚ) / (q : ℚ)) = roundAway p q := by
  have hq0 : ((q : ℚ)) ≠ 0 := by
    exact_mod_cast hq.ne'
  rw [round_eq, roundAway, if_pos hp]
  have h2 : (p : ℚ) / (q : ℚ) + 1 / 2 = ((2 * p + q : ℤ) : ℚ) / ((2 * q : ℤ) : ℚ) := by
    push_cast
    field_simp
    ring
  rw [h2, floor_int_div_q _ _ (by omega)]

theorem specTrunc_div10 (v : ℤ) : specTrunc ((v : ℚ) / 10) = truncTenths v := by
  unfold specTrunc truncTenths
  by_cases hv : 0 ≤ v
  · have hvq : (0 : ℚ) ≤ (v : ℚ) / 10 := by positivity
    rw [if_pos hvq, if_pos hv, show (10 : ℚ) = ((10 : ℤ) : ℚ) by norm_num,
      floor_int_div_q _ _ (by norm_num)]
  · have hvq : ¬ (0 : ℚ) ≤ (v : ℚ) / 10 := by
      intro hc
      apply hv
      have : (0 : ℚ) ≤ (v : ℚ) := by
        nlinarith
      exact_mod_cast this
    rw [if_neg hvq, if_neg hv]
    congr 1
    rw [show -((v : ℚ) / 10) = ((-v : ℤ) : ℚ) / ((10 : ℤ) : ℚ) by push_cast; ring,
      floor_int_div_q _ _ (by norm_num)]

theorem calcAQI_eq_bandAQI (Cp Ih Il BPh10 BPl10 : ℤ)
    (hb : 0 < BPh10 - BPl10) (ha : 0 ≤ Ih - Il) :
    calcAQI Cp Ih Il BPh10 BPl10 = bandAQI Cp Ih Il ((BPh10 : ℚ) / 10) ((BPl10 : ℚ) / 10) := by
  unfold calcAQI bandAQI
  have hbq : ((BPh10 - BPl10 : ℤ) : ℚ) ≠ 0 := by
    exact_mod_cast hb.ne'
  have hslope : round (((Ih : ℚ) - (Il : ℚ)) / ((BPh10 : ℚ) / 10 - (BPl10 : ℚ) / 10))
      = roundAway (10 * (Ih - Il)) (BPh10 - BPl10) := by
    have hdiv : ((Ih : ℚ) - (Il : ℚ)) / ((BPh10 : ℚ) / 10 - (BPl10 : ℚ) / 10)
        = ((10 * (Ih - Il) : ℤ) : ℚ) / ((BPh10 - BPl10 : ℤ) : ℚ) := by
      rw [div_eq_div_iff]
      · push_cast
        ring
      · intro hc
        apply hb.ne'
        have : ((BPh10 - BPl10 : ℤ) : ℚ) = 0 := by
          push_cast
          linarith
        exact_mod_cast this
      · exact hbq
    rw [hdiv, round_int_div_q _ _ (by omega) (by omega)]
  rw [hslope]
  have hval : ((roundAway (10 * (Ih - Il)) (BPh10 - BPl10) : ℤ) : ℚ) * ((Cp : ℚ) - (BPl10 : ℚ) / 10)
        + (Il : ℚ)
      = ((roundAway (10 * (Ih - Il)) (BPh10 - BPl10) * (10 * Cp - BPl10) + 10 * Il : ℤ) : ℚ) / 10 := by
    push_cast
    field_simp
    ring
  rw [hval, specTrunc_div10]

theorem cast_gt_tenths (pm t : ℤ) : ((pm : ℚ) > (t : ℚ) / 10) ↔ 10 * pm > t := by
  rw [gt_iff_lt, div_lt_iff₀ (by norm_num : (0 : ℚ) < 10),
    show ((pm : ℚ) * 10) = ((pm * 10 : ℤ) : ℚ) by push_cast; ring, Int.cast_lt]
  omega

/-- Claim C6: `PM_TO_AQI_US` coincides with the reference definition written
from the spec: sentinel propagation for negative input, cap at 500 above 1000,
band selection by strict `>` against descending thresholds, and linear
interpolation with rounding applied to the slope term only. -/
theorem PM_TO_AQI_US_eq_spec (pm : ℤ) : PM_TO_AQI_US pm = pm_to_aqi_spec pm := by
  unfold PM_TO_AQI_US pm_to_aqi_spec
  by_cases h1 : pm < 0
  · simp [h1]
  rw [if_neg h1, if_neg h1]
  by_cases h2 : pm > 1000
  · rw [if_pos h2, if_pos h2]
  rw [if_neg h2, if_neg h2]
  have c1 : ((pm : ℚ) > 350.5) ↔ 10 * pm > 3505 := by
    rw [show (350.5 : ℚ) = ((3505 : ℤ) : ℚ) / 10 by norm_num]
    exact cast_gt_tenths pm 3505
  have c2 : ((pm : ℚ) > 250.5) ↔ 10 * pm > 2505 := by
    rw [show (250.5 : ℚ) = ((2505 : ℤ) : ℚ) / 10 by norm_num]
    exact cast_gt_tenths pm 2505
  have c3 : ((pm : ℚ) > 150.5) ↔ 10 * pm > 1505 := by
    rw [show (150.5 : ℚ) = ((1505 : ℤ) : ℚ) / 10 by norm_num]
    exact cast_gt_tenths pm 1505
  have c4 : ((pm : ℚ) > 55.5) ↔ 10 * pm > 555 := by
    rw [show (55.5 : ℚ) = ((555 : ℤ) : ℚ) / 10 by norm_num]
    exact cast_gt_tenths pm 555
  have c5 : ((pm : ℚ) > 35.5) ↔ 10 * pm > 355 := by
    rw [show (35.5 : ℚ) = ((355 : ℤ) : ℚ) / 10 by norm_num]
    exact cast_gt_tenths pm 355
  have c6 : ((pm : ℚ) > 12.1) ↔ 10 * pm > 121 := by
    rw [show (12.1 : ℚ) = ((121 : ℤ) : ℚ) / 10 by norm_num]
    exact cast_gt_tenths pm 121
  by_cases h3 : 10 * pm > 3505
  · rw [if_pos h3, if_pos (c1.mpr h3), calcAQI_eq_bandAQI _ _ _ _ _ (by norm_num) (by norm_num)]
    norm_num
  rw [if_neg h3, if_neg (fun hq => h3 (c1.mp hq))]
  by_cases h4 : 10 * pm > 2505
  · rw [if_pos h4, if_pos (c2.mpr h4), calcAQI_eq_bandAQI _ _ _ _ _ (by norm_num) (by norm_num)]
    norm_num
  rw [if_neg h4, if_neg (fun hq => h4 (c2.mp hq))]
  by_cases h5 : 10 * pm > 1505
  · rw [if_pos h5, if_pos (c3.mpr h5), calcAQI_eq_bandAQI _ _ _ _ _ (by norm_num) (by norm_num)]
    norm_num
  rw [if_neg h5, if_neg (fun hq => h5 (c3.mp hq))]
  by_cases h6 : 10 * pm > 555
  · rw [if_pos h6, if_pos (c4.mpr h6), calcAQI_eq_bandAQI _ _ _ _ _ (by norm_num) (by norm_num)]
    norm_num
  rw [if_neg h6, if_neg (fun hq => h6 (c4.mp hq))]
  by_cases h7 : 10 * pm > 355
  · rw [if_pos h7, if_pos (c5.mpr h7), calcAQI_eq_bandAQI _ _ _ _ _ (by norm_num) (by norm_num)]
    norm_num
  rw [if_neg h7, if_neg (fun hq => h7 (c5.mp hq))]
  by_cases h8 : 10 * pm > 121
  · rw [if_pos h8, if_pos (c6.mpr h8), calcAQI_eq_bandAQI _ _ _ _ _ (by norm_num) (by norm_num)]
    norm_num
  rw [if_neg h8, if_neg (fun hq => h8 (c6.mp hq))]
  rw [calcAQI_eq_bandAQI _ _ _ _ _ (by norm_num) (by norm_num)]
  norm_num

-- ---------------------------------------------------------------------------
-- Monotonicity of the AQI conversion (claim C2)
-- ---------------------------------------------------------------------------

set_option maxRecDepth 20000 in
theorem aqi_adj_low_fin : ∀ n : Fin 150, PM_TO_AQI_US (n : ℤ) ≤ PM_TO_AQI_US ((n : ℤ) + 1) := by
  decide

set_option maxRecDepth 20000 in
theorem aqi_adj_high_fin :
    ∀ n : Fin 849, PM_TO_AQI_US (151 + (n : ℤ)) ≤ PM_TO_AQI_US (152 + (n : ℤ)) := by
  decide

theorem aqi_adj_low (k : ℤ) (h0 : 0 ≤ k) (h1 : k < 150) :
    PM_TO_AQI_US k ≤ PM_TO_AQI_US (k + 1) := by
  have h := aqi_adj_low_fin ⟨k.toNat, by omega⟩
  simpa [Int.toNat_of_nonneg h0] using h

theorem aqi_adj_high (k : ℤ) (h0 : 151 ≤ k) (h1 : k < 1000) :
    PM_TO_AQI_US k ≤ PM_TO_AQI_US (k + 1) := by
  have h := aqi_adj_high_fin ⟨(k - 151).toNat, by omega⟩
  have e1 : (151 : ℤ) + ((k - 151).toNat : ℤ) = k := by
    rw [Int.toNat_of_nonneg (by omega)]
    ring
  have e2 : (152 : ℤ) + ((k - 151).toNat : ℤ) = k + 1 := by
    rw [Int.toNat_of_nonneg (by omega)]
    ring
  simp only [Fin.val_mk] at h
  rw [e1, e2] at h
  exact h

theorem mono_of_adjacent (f : ℤ → ℤ) (a b : ℤ)
    (hadj : ∀ k, a ≤ k → k < b → f k ≤ f (k + 1)) :
    ∀ x y, a ≤ x → x ≤ y → y ≤ b → f x ≤ f y := by
  intro x y hax hxy hyb
  have H : ∀ z, x ≤ z → (z ≤ b → f x ≤ f z) := by
    refine Int.le_induction ?_ ?_
    · intro _
      exact le_rfl
    · intro n hxn ih hnb
      exact le_trans (ih (by omega)) (hadj n (by omega) (by omega))
  exact H y hxy hyb

/-- Claim C2 counterexample: the conversion is not monotone over all of
0..1000 — it drops from 245 at raw = 150 to 201 at raw = 151. -/
theorem PM_TO_AQI_US_not_mono_at_150 :
    (0 : ℤ) ≤ 150 ∧ (150 : ℤ) ≤ 151 ∧ (151 : ℤ) ≤ 1000 ∧
    ¬ PM_TO_AQI_US 150 ≤ PM_TO_AQI_US 151 := by
  decide

/-- Claim C2 (amended): the AQI conversion is monotonically non-decreasing on
each side of the 150/151 band boundary — for 0 ≤ raw1 ≤ raw2 ≤ 1000 with
either both at most 150 or both at least 151, PM_TO_AQI_US raw1 ≤
PM_TO_AQI_US raw2; the single violation of full monotonicity is the step from
raw = 150 (AQI 245) to raw = 151 (AQI 201). -/
theorem PM_TO_AQI_US_mono_piecewise (r1 r2 : ℤ) (h0 : 0 ≤ r1) (h12 : r1 ≤ r2)
    (h2 : r2 ≤ 1000) (hside : r2 ≤ 150 ∨ 151 ≤ r1) :
    PM_TO_AQI_US r1 ≤ PM_TO_AQI_US r2 := by
  rcases hside with hs | hs
  · exact mono_of_adjacent _ 0 150 aqi_adj_low r1 r2 h0 h12 hs
  · exact mono_of_adjacent _ 151 1000 aqi_adj_high r1 r2 hs h12 h2

theorem PM_TO_AQI_US_mono_piecewise_witness : PM_TO_AQI_US 10 ≤ PM_TO_AQI_US 20 :=
  PM_TO_AQI_US_mono_piecewise 10 20 (by decide) (by decide) (by decide) (Or.inl (by decide))

-- ---------------------------------------------------------------------------
-- Display state (source lines 90-149) and the display tick (lines 315-352)
-- ---------------------------------------------------------------------------

/-- Maximum number of uploadable images (source `MAX_DISPLAY_IMG`). -/
def MAX_DISPLAY_IMG : ℕ := 20

/-- Byte length of one uploaded screen (source `DISPLAY_IMG_BYTE_LEN`). -/
def DISPLAY_IMG_BYTE_LEN : ℕ := 1024

/-- Max age in ms that a custom display will show up without changes
(source `customDisplayMaxAge`, one hour). -/
def customDisplayMaxAge : ℕ := 3600000

/-- One uploadable display slot (source `struct display_image`). -/
structure display_image where
  display : List ℕ
  active : Bool
  last_updated : ℕ
deriving DecidableEq

/-- The global mutable state of the sketch that the display cycle and the two
POST handlers read and write. -/
structure S where
  dimg : ℕ → display_image
  displayActive : ℕ
  displayCycle : ℕ
  display_last_set : ℕ
  previousOled : ℕ
  oledInterval : ℕ
  custom_watt : String
  custom_wattavg : String
  custom_water : String
  custom_watertoday : String
  custom_garage : String
  custom_garagetime : String

/-- One render action of a fired display tick: the built-in sensor summary
(`drawScreen1`), the remote summary (`drawScreen2`), or an uploaded bitmap
(`drawCustomScreen(index)`). -/
inductive Render where
  | screen1 : Render
  | screen2 : Render
  | custom : ℕ → Render
deriving DecidableEq

/-- The slot test on line 327-329 of the source:
`dimg[i].active && (currentMillis - dimg[i].last_updated < customDisplayMaxAge)`. -/
def isDisplayable (now : ℕ) (sl : display_image) : Bool :=
  sl.active && decide (wsub now sl.last_updated < customDisplayMaxAge)

/-- The slot-scan `for` loop of `updateOLED` (source lines 325-334): repeat at
most `k` times: advance the cursor by one mod `MAX_DISPLAY_IMG`; stop at the
first displayable slot.  Returns the final cursor and the found index. -/
def scanLoop (dimg : ℕ → display_image) (now : ℕ) : ℕ → ℕ → ℕ × Option ℕ
  | cursor, 0 => (cursor, none)
  | cursor, k + 1 =>
    let c := (cursor + 1) % MAX_DISPLAY_IMG
    if isDisplayable now (dimg c) then (c, some c) else scanLoop dimg now c k

/-- C unsigned 32-bit unary minus. -/
def wneg (b : ℕ) : ℕ := (U32 - b % U32) % U32

/-- The phase-2 freshness test on source lines 341-342:
`(display_last_set > 0) && (currentMillis - -display_last_set < customDisplayMaxAge)`.
Note the doubled minus sign in the source: it negates `display_last_set` in
unsigned arithmetic before subtracting, so the age compared is
`(now + display_last_set) mod 2^32`, not `now - display_last_set`. -/
def fresh2 (now ls : ℕ) : Bool :=
  decide (0 < ls) && decide (wsub now (wneg ls) < customDisplayMaxAge)

/-- The first `if` block of a fired tick (source lines 323-339): on phases 1
and 3 scan for a displayable slot; if found, draw it and leave the cursor on
it; otherwise advance the phase one more step. -/
def phase13 (now : ℕ) (s : S) : S × List Render :=
  if s.displayCycle = 1 ∨ s.displayCycle = 3 then
    match scanLoop s.dimg now s.displayActive MAX_DISPLAY_IMG with
    | (c, some j) => ({ s with displayActive := c }, [Render.custom j])
    | (c, none) => ({ s with displayActive := c, displayCycle := (s.displayCycle + 1) % 4 }, [])
  else (s, [])

/-- The second `if` block of a fired tick (source lines 340-347): on phase 2
draw the remote summary if fresh, else fall back to phase 0. -/
def phase2 (now : ℕ) (s : S) : S × List Render :=
  if s.displayCycle = 2 then
    if fresh2 now s.display_last_set then (s, [Render.screen2])
    else ({ s with displayCycle := 0 }, [])
  else (s, [])

/-- The third `if` block of a fired tick (source lines 348-350): on phase 0
draw the built-in summary. -/
def phase0 (s : S) : List Render :=
  if s.displayCycle = 0 then [Render.screen1] else []

/-- The body of a fired tick after `previousOled` and `displayCycle` have been
advanced: the three sequential `if` blocks of source lines 323-350, collecting
the draw calls in order. -/
def tickFired (now : ℕ) (s1 : S) : S × List Render :=
  ((phase2 now (phase13 now s1).1).1,
   (phase13 now s1).2 ++ (phase2 now (phase13 now s1).1).2
     ++ phase0 (phase2 now (phase13 now s1).1).1)

/-- `updateOLED` (source lines 315-352): when the interval has elapsed,
advance `previousOled` by one interval, advance the phase, then run the three
sequential `if` blocks. -/
def updateOLED (now : ℕ) (s : S) : S × List Render :=
  if s.oledInterval ≤ wsub now s.previousOled then
    tickFired now { s with previousOled := (s.previousOled + s.oledInterval) % U32,
                           displayCycle := (s.displayCycle + 1) % 4 }
  else (s, [])

-- ---------------------------------------------------------------------------
-- Characterization of the slot scan
-- ---------------------------------------------------------------------------

/-- The index window visited by a `k`-step scan starting after `cursor`, in
visit order. -/
def scanWindow (cursor k : ℕ) : List ℕ :=
  (List.range k).map (fun t => (cursor + t + 1) % MAX_DISPLAY_IMG)

theorem scanLoop_eq (dimg : ℕ → display_image) (now : ℕ) :
    ∀ (k cursor : ℕ), scanLoop dimg now cursor k =
      match (scanWindow cursor k).find? (fun j => isDisplayable now (dimg j)) with
      | some j => (j, some j)
      | none => ((if k = 0 then cursor else (cursor + k) % MAX_DISPLAY_IMG), none) := by
  intro k
  induction k with
  | zero =>
    intro cursor
    simp [scanLoop, scanWindow]
  | succ n ih =>
    intro cursor
    have hwin : scanWindow cursor (n + 1)
        = ((cursor + 1) % MAX_DISPLAY_IMG) :: scanWindow ((cursor + 1) % MAX_DISPLAY_IMG) n := by
      unfold scanWindow
      rw [List.range_succ_eq_map, List.map_cons, List.map_map]
      congr 1
      apply List.map_congr_left
      intro t ht
      simp only [Function.comp_apply]
      have h1 : (cursor + 1) % MAX_DISPLAY_IMG + t + 1
          = (cursor + 1) % MAX_DISPLAY_IMG + (t + 1) := by omega
      rw [h1, Nat.mod_add_mod]
      congr 1
      omega
    rw [scanLoop, hwin]
    by_cases hd : isDisplayable now (dimg ((cursor + 1) % MAX_DISPLAY_IMG)) = true
    · simp [List.find?_cons, hd]
    · simp only [List.find?_cons, hd, Bool.false_eq_true, if_false, if_neg hd]
      rw [ih]
      rcases hfind : (scanWindow ((cursor + 1) % MAX_DISPLAY_IMG) n).find?
          (fun j => isDisplayable now (dimg j)) with _ | j
      · simp only [hfind]
        rcases Nat.eq_zero_or_pos n with hn | hn
        · subst hn
          simp
        · rw [if_neg (by omega), if_neg (by omega)]
          rw [Prod.mk.injEq]
          refine ⟨?_, rfl⟩
          rw [Nat.mod_add_mod]
          congr 1
          omega
      · simp only [hfind]

theorem scanLoop_found (dimg : ℕ → display_image) (now cursor c j : ℕ)
    (h : scanLoop dimg now cursor MAX_DISPLAY_IMG = (c, some j)) :
    c = j ∧ j < MAX_DISPLAY_IMG ∧ isDisplayable now (dimg j) = true ∧
      j ∈ scanWindow cursor MAX_DISPLAY_IMG := by
  rw [scanLoop_eq] at h
  rcases hfind : (scanWindow cursor MAX_DISPLAY_IMG).find?
      (fun j => isDisplayable now (dimg j)) with _ | j0
  · rw [hfind] at h
    simp at h
  · rw [hfind] at h
    simp only [Prod.mk.injEq, Option.some.injEq] at h
    obtain ⟨hc, hj⟩ := h
    have hcj : c = j := by rw [← hc, hj]
    have hmem : j ∈ scanWindow cursor MAX_DISPLAY_IMG := hj ▸ List.mem_of_find?_eq_some hfind
    have hpred : isDisplayable now (dimg j) = true := by
      have hp := List.find?_some hfind
      rw [hj] at hp
      simpa using hp
    refine ⟨hcj, ?_, hpred, hmem⟩
    simp only [scanWindow, List.mem_map, List.mem_range, MAX_DISPLAY_IMG] at hmem
    obtain ⟨t, _, hteq⟩ := hmem
    simp only [MAX_DISPLAY_IMG]
    omega

theorem scanLoop_none (dimg : ℕ → display_image) (now cursor c : ℕ)
    (h : scanLoop dimg now cursor MAX_DISPLAY_IMG = (c, none)) :
    c = cursor % MAX_DISPLAY_IMG ∧
      ∀ i, i < MAX_DISPLAY_IMG → isDisplayable now (dimg i) = false := by
  rw [scanLoop_eq] at h
  rcases hfind : (scanWindow cursor MAX_DISPLAY_IMG).find?
      (fun j => isDisplayable now (dimg j)) with _ | j0
  · rw [hfind] at h
    simp only [Prod.mk.injEq] at h
    obtain ⟨hc, -⟩ := h
    constructor
    · rw [← hc, if_neg (by norm_num [MAX_DISPLAY_IMG])]
      have : cursor + MAX_DISPLAY_IMG = cursor + 1 * MAX_DISPLAY_IMG := by ring
      rw [this, Nat.add_mul_mod_self_right]
    · intro i hi
      have hall := List.find?_eq_none.mp hfind
      have hmem : i ∈ scanWindow cursor MAX_DISPLAY_IMG := by
        simp only [scanWindow, List.mem_map, List.mem_range, MAX_DISPLAY_IMG]
        simp only [MAX_DISPLAY_IMG] at hi
        refine ⟨(i + 20 - (cursor + 1) % 20) % 20, ?_, ?_⟩
        · omega
        · omega
      have := hall i hmem
      simpa using this
  · rw [hfind] at h
    simp at h

theorem scanLoop_cursor_lt (dimg : ℕ → display_image) (now cursor : ℕ) :
    (scanLoop dimg now cursor MAX_DISPLAY_IMG).1 < MAX_DISPLAY_IMG := by
  rcases hs : scanLoop dimg now cursor MAX_DISPLAY_IMG with ⟨c, j⟩
  rcases j with _ | j
  · obtain ⟨hc, -⟩ := scanLoop_none dimg now cursor c hs
    simp only [hc]
    exact Nat.mod_lt _ (by norm_num [MAX_DISPLAY_IMG])
  · obtain ⟨hc, hj, -, -⟩ := scanLoop_found dimg now cursor c j hs
    omega

theorem wsub_of_le (a b : ℕ) (hb : b ≤ a) (ha : a < U32) : wsub a b = a - b := by
  have hbU : b < U32 := lt_of_le_of_lt hb ha
  rw [wsub, Nat.mod_eq_of_lt ha, Nat.mod_eq_of_lt hbU,
    show a + (U32 - b) = (a - b) + U32 by omega, Nat.add_mod_right,
    Nat.mod_eq_of_lt (by omega)]

theorem fresh2_zero (now : ℕ) : fresh2 now 0 = false := by
  simp [fresh2]

theorem isDisplayable_iff (now : ℕ) (sl : display_image)
    (h1 : sl.last_updated ≤ now) (h2 : now < U32) :
    isDisplayable now sl = true ↔
      sl.active = true ∧ now - sl.last_updated < customDisplayMaxAge := by
  simp [isDisplayable, wsub_of_le _ _ h1 h2]

theorem scanLoop_none_of (dimg : ℕ → display_image) (now cursor : ℕ)
    (h : ∀ i, i < MAX_DISPLAY_IMG → isDisplayable now (dimg i) = false) :
    scanLoop dimg now cursor MAX_DISPLAY_IMG = (cursor % MAX_DISPLAY_IMG, none) := by
  rw [scanLoop_eq]
  have hfind : (scanWindow cursor MAX_DISPLAY_IMG).find?
      (fun j => isDisplayable now (dimg j)) = none := by
    rw [List.find?_eq_none]
    intro a ha
    simp only [scanWindow, List.mem_map, List.mem_range] at ha
    obtain ⟨t, ht, rfl⟩ := ha
    have hlt : (cursor + t + 1) % MAX_DISPLAY_IMG < MAX_DISPLAY_IMG :=
      Nat.mod_lt _ (by norm_num [MAX_DISPLAY_IMG])
    simp [h _ hlt]
  rw [hfind]
  simp only [if_neg (by norm_num [MAX_DISPLAY_IMG] : ¬ MAX_DISPLAY_IMG = 0)]
  rw [Prod.mk.injEq]
  refine ⟨?_, rfl⟩
  rw [show cursor + MAX_DISPLAY_IMG = cursor + 1 * MAX_DISPLAY_IMG by ring,
    Nat.add_mul_mod_self_right]

theorem tickFired_len (now : ℕ) (s1 : S) (h4 : s1.displayCycle < 4) :
    (tickFired now s1).2.length = 1 := by
  have hd : s1.displayCycle = 0 ∨ s1.displayCycle = 1 ∨ s1.displayCycle = 2
      ∨ s1.displayCycle = 3 := by omega
  rcases hd with h0 | h1 | h2 | h3
  · simp [tickFired, phase13, phase2, phase0, h0]
  · rcases hs : scanLoop s1.dimg now s1.displayActive MAX_DISPLAY_IMG with ⟨c, jopt⟩
    rcases jopt with _ | j
    · by_cases hf : fresh2 now s1.display_last_set
      · simp [tickFired, phase13, phase2, phase0, h1, hs, hf]
      · simp [tickFired, phase13, phase2, phase0, h1, hs, hf]
    · simp [tickFired, phase13, phase2, phase0, h1, hs]
  · by_cases hf : fresh2 now s1.display_last_set
    · simp [tickFired, phase13, phase2, phase0, h2, hf]
    · simp [tickFired, phase13, phase2, phase0, h2, hf]
  · rcases hs : scanLoop s1.dimg now s1.displayActive MAX_DISPLAY_IMG with ⟨c, jopt⟩
    rcases jopt with _ | j
    · simp [tickFired, phase13, phase2, phase0, h3, hs]
    · simp [tickFired, phase13, phase2, phase0, h3, hs]

theorem tickFired_idle (now : ℕ) (s1 : S) (h4 : s1.displayCycle < 4)
    (hin : ∀ i, i < MAX_DISPLAY_IMG → isDisplayable now (s1.dimg i) = false)
    (hls : fresh2 now s1.display_last_set = false) :
    (tickFired now s1).1.displayCycle = 0 ∧ (tickFired now s1).2 = [Render.screen1] := by
  have hnone := scanLoop_none_of s1.dimg now s1.displayActive hin
  have hd : s1.displayCycle = 0 ∨ s1.displayCycle = 1 ∨ s1.displayCycle = 2
      ∨ s1.displayCycle = 3 := by omega
  rcases hd with h0 | h1 | h2 | h3
  · constructor <;> simp [tickFired, phase13, phase2, phase0, h0]
  · constructor <;>
      simp [tickFired, phase13, phase2, phase0, h1, hnone, hls]
  · constructor <;>
      simp [tickFired, phase13, phase2, phase0, h2, hls]
  · constructor <;> simp [tickFired, phase13, phase2, phase0, h3, hnone]

-- ---------------------------------------------------------------------------
-- Claims C7, C3, C5, C1 about the display tick
-- ---------------------------------------------------------------------------

/-- The concrete state used to refute the scenario clause of claim C7: no
active slots, a remote summary last posted at 2000 ms, observed at
now = 2^32 - 1000, i.e. about 49.7 days later — far beyond the max age, so
not fresh in the claim's sense. -/
def sC7 : S :=
  ⟨fun _ => ⟨[], false, 0⟩, 0, 1, 2000, 0, 5000, "", "", "", "", "", ""⟩

/-- Claim C7 counterexample: with no active slots and a remote summary whose
age now - last_set is far above customDisplayMaxAge (no fresh remote summary),
a fired tick entering phase 2 nevertheless renders the remote summary and
stays in phase 2 instead of resolving to phase 0 with the built-in summary:
line 342's `currentMillis - -display_last_set` computes
(now + last_set) mod 2^32 = 1000 < max age by wraparound. -/
theorem updateOLED_stale_summary_wrap :
    sC7.oledInterval ≤ wsub 4294966296 sC7.previousOled ∧
    ((List.range MAX_DISPLAY_IMG).all (fun i => !((sC7.dimg i).active))) = true ∧
    0 < sC7.display_last_set ∧
    customDisplayMaxAge ≤ 4294966296 - sC7.display_last_set ∧
    (updateOLED 4294966296 sC7).2 = [Render.screen2] ∧
    (updateOLED 4294966296 sC7).1.displayCycle = 2 ∧
    ¬ (updateOLED 4294966296 sC7).1.displayCycle = 0 := by
  decide

/-- Claim C7 (amended): every fired display tick produces exactly one render
action.  With no active slots and a remote summary that fails the code's
phase-2 freshness test `fresh2` — in particular whenever no summary was ever
posted (`display_last_set = 0` makes `fresh2` false) — every tick resolves to
phase 0 and renders the built-in summary, so the cycle never stalls.  (The
claim's broader "no fresh remote summary", now - last_set ≥ max age, does not
suffice: a stale summary can pass `fresh2` by the line-342 wraparound and is
then rendered at phase 2.) -/
theorem updateOLED_one_render (now : ℕ) (s : S)
    (h : s.oledInterval ≤ wsub now s.previousOled) :
    (updateOLED now s).2.length = 1 ∧
    ((∀ i, i < MAX_DISPLAY_IMG → (s.dimg i).active = false) →
      fresh2 now s.display_last_set = false →
      (updateOLED now s).1.displayCycle = 0 ∧ (updateOLED now s).2 = [Render.screen1]) := by
  rw [updateOLED, if_pos h]
  constructor
  · exact tickFired_len now _ (by simp [Nat.mod_lt])
  · intro hin hls
    refine tickFired_idle now _ (by simp [Nat.mod_lt]) ?_ (by simpa using hls)
    intro i hi
    simp [isDisplayable, hin i hi]

theorem updateOLED_one_render_witness :
    (updateOLED 5000 (⟨fun _ => ⟨[], false, 0⟩, 0, 0, 0, 0, 5000,
        "", "", "", "", "", ""⟩ : S)).2.length = 1 ∧
    (updateOLED 5000 (⟨fun _ => ⟨[], false, 0⟩, 0, 0, 0, 0, 5000,
        "", "", "", "", "", ""⟩ : S)).1.displayCycle = 0 :=
  ⟨(updateOLED_one_render 5000 _ (by decide)).1,
   ((updateOLED_one_render 5000 _ (by decide)).2
      (fun i hi => rfl) (by decide)).1⟩

/-- The concrete state used to exhibit the double fallback of claim C3:
about to enter phase 1, no slots uploaded, no remote summary ever posted. -/
def sC3 : S :=
  ⟨fun _ => ⟨[], false, 0⟩, 0, 0, 0, 0, 5000, "", "", "", "", "", ""⟩

/-- Claim C3 counterexample: with new phase 1, no displayable slot and no
fresh remote summary, the tick ends in phase 0 — two hops, not the single hop
to phase (1+1) mod 4 = 2 the claim asserts. -/
theorem updateOLED_double_hop :
    (sC3.displayCycle + 1) % 4 = 1 ∧
    sC3.oledInterval ≤ wsub 5000 sC3.previousOled ∧
    ((List.range MAX_DISPLAY_IMG).all
      (fun i => !(isDisplayable 5000 (sC3.dimg i)))) = true ∧
    (updateOLED 5000 sC3).1.displayCycle = 0 ∧
    ¬ (updateOLED 5000 sC3).1.displayCycle = ((sC3.displayCycle + 1) % 4 + 1) % 4 := by
  decide

/-- Claim C3 (amended): on a fired tick whose new phase is 1 or 3 with no
displayable slot, the slot scan itself causes exactly one extra phase hop (no
re-scan).  For new phase 3 the tick ends in phase 0 = (3+1) mod 4 rendering
the built-in summary.  For new phase 1 the extra hop lands on phase 2, whose
own fallback rule then applies: if the remote summary passes the phase-2
freshness test the tick ends in phase 2 rendering the remote summary (one
hop), otherwise it falls through a second time and ends in phase 0 rendering
the built-in summary (two hops in the same tick). -/
theorem updateOLED_fallback (now : ℕ) (s : S)
    (h : s.oledInterval ≤ wsub now s.previousOled)
    (hnone : ∀ i, i < MAX_DISPLAY_IMG → isDisplayable now (s.dimg i) = false) :
    (((s.displayCycle + 1) % 4 = 3) →
       (updateOLED now s).1.displayCycle = 0 ∧ (updateOLED now s).2 = [Render.screen1]) ∧
    (((s.displayCycle + 1) % 4 = 1) →
       ((fresh2 now s.display_last_set = true →
           (updateOLED now s).1.displayCycle = 2 ∧
           (updateOLED now s).2 = [Render.screen2]) ∧
        (fresh2 now s.display_last_set = false →
           (updateOLED now s).1.displayCycle = 0 ∧
           (updateOLED now s).2 = [Render.screen1]))) := by
  rw [updateOLED, if_pos h]
  have hnone2 := scanLoop_none_of s.dimg now s.displayActive hnone
  constructor
  · intro h3
    constructor <;> simp [tickFired, phase13, phase2, phase0, h3, hnone2]
  · intro h1
    constructor
    · intro hf
      constructor <;> simp [tickFired, phase13, phase2, phase0, h1, hnone2, hf]
    · intro hf
      constructor <;> simp [tickFired, phase13, phase2, phase0, h1, hnone2, hf]

theorem updateOLED_fallback_witness :
    (updateOLED 5000 sC3).1.displayCycle = 0 ∧ (updateOLED 5000 sC3).2 = [Render.screen1] :=
  ((updateOLED_fallback 5000 sC3 (by decide)
      (fun i hi => by simp [sC3, isDisplayable])).2 (by decide)).2 (by decide)

/-- Slots 2, 7 and 15 active and freshly updated, all others inactive: the
example configuration of claim C5. -/
def exampleSlots : ℕ → display_image := fun i =>
  if i = 2 ∨ i = 7 ∨ i = 15 then ⟨[], true, 0⟩ else ⟨[], false, 0⟩

/-- Claim C5: the slot search scans indices in increasing cyclic order
starting at cursor+1 mod 20 (the visit order is `scanWindow`), returns the
first displayable index (`List.find?`) leaving the cursor there; when nothing
is displayable it reports none with the cursor back at its pre-scan value; and
on the example with active slots 2, 7, 15 successive calls return 2, 7, 15, 2. -/
theorem scanLoop_spec_claim (dimg : ℕ → display_image) (now cursor : ℕ)
    (hc : cursor < MAX_DISPLAY_IMG) (hnow : now < U32)
    (hts : ∀ i, i < MAX_DISPLAY_IMG → (dimg i).last_updated ≤ now) :
    ((scanLoop dimg now cursor MAX_DISPLAY_IMG).2
        = (scanWindow cursor MAX_DISPLAY_IMG).find? (fun j => isDisplayable now (dimg j))) ∧
    (∀ c j, scanLoop dimg now cursor MAX_DISPLAY_IMG = (c, some j) →
        c = j ∧ j < MAX_DISPLAY_IMG ∧ (dimg j).active = true ∧
          now - (dimg j).last_updated < customDisplayMaxAge) ∧
    (∀ c, scanLoop dimg now cursor MAX_DISPLAY_IMG = (c, none) →
        c = cursor ∧ ∀ i, i < MAX_DISPLAY_IMG →
          ¬ ((dimg i).active = true ∧ now - (dimg i).last_updated < customDisplayMaxAge)) ∧
    (scanLoop exampleSlots 0 0 MAX_DISPLAY_IMG = (2, some 2) ∧
     scanLoop exampleSlots 0 2 MAX_DISPLAY_IMG = (7, some 7) ∧
     scanLoop exampleSlots 0 7 MAX_DISPLAY_IMG = (15, some 15) ∧
     scanLoop exampleSlots 0 15 MAX_DISPLAY_IMG = (2, some 2)) := by
  refine ⟨?_, ?_, ?_, by decide, by decide, by decide, by decide⟩
  · rw [scanLoop_eq]
    rcases hfind : (scanWindow cursor MAX_DISPLAY_IMG).find?
        (fun j => isDisplayable now (dimg j)) with _ | j
    · rfl
    · rfl
  · intro c j hs
    obtain ⟨hcj, hj, hdisp, -⟩ := scanLoop_found dimg now cursor c j hs
    have := (isDisplayable_iff now (dimg j) (hts j hj) hnow).mp hdisp
    exact ⟨hcj, hj, this.1, this.2⟩
  · intro c hs
    obtain ⟨hcur, hall⟩ := scanLoop_none dimg now cursor c hs
    refine ⟨by rw [hcur, Nat.mod_eq_of_lt hc], ?_⟩
    intro i hi hcontra
    have := (isDisplayable_iff now (dimg i) (hts i hi) hnow).mpr hcontra
    rw [hall i hi] at this
    exact Bool.false_ne_true this

theorem scanLoop_spec_claim_witness :
    scanLoop exampleSlots 0 0 MAX_DISPLAY_IMG = (2, some 2) :=
  (scanLoop_spec_claim exampleSlots 0 0 (by decide) (by decide)
      (fun i hi => by
        unfold exampleSlots
        split_ifs <;> simp)).2.2.2.1

/-- The concrete state used to exhibit the phase-2 freshness bug of claim C1:
about to enter phase 2, remote summary posted 1000 ms ago. -/
def sC1 : S :=
  ⟨fun _ => ⟨[], false, 0⟩, 0, 1, 3999000, 0, 5000, "", "", "", "", "", ""⟩

/-- Claim C1 (code bug): at now = 4000000 with display_last_set = 3999000 the
remote summary is fresh in the claim's sense (0 < last_set and
now - last_set = 1000 < customDisplayMaxAge), yet the fired tick entering
phase 2 falls back to phase 0 and renders the built-in summary, because
source line 342 computes `currentMillis - -display_last_set` (note the doubled
minus), i.e. (now + last_set) mod 2^32 = 7999000, which fails the age test. -/
theorem updateOLED_phase2_freshness_bug :
    0 < sC1.display_last_set ∧
    4000000 - sC1.display_last_set < customDisplayMaxAge ∧
    sC1.oledInterval ≤ wsub 4000000 sC1.previousOled ∧
    (sC1.displayCycle + 1) % 4 = 2 ∧
    (updateOLED 4000000 sC1).2 = [Render.screen1] ∧
    (updateOLED 4000000 sC1).1.displayCycle = 0 := by
  decide

-- ---------------------------------------------------------------------------
-- HTTP handlers (source lines 521-570)
-- ---------------------------------------------------------------------------

/-- The body of one iteration of the `HandleDisplayUpload` loop for slot `i`
(source lines 524-542): absent argument → skip; empty payload → deactivate and
report success; wrong-length payload → deactivate and report a length error;
1024-byte payload → copy it, activate, stamp `last_updated`, report success.
Returns the new slot and the line appended to the response. -/
def processSlot (now i : ℕ) (arg : Option (List ℕ)) (sl : display_image) :
    display_image × String :=
  match arg with
  | none => (sl, "")
  | some p =>
    if p.length = 0 then
      ({ sl with active := false }, "SUCCESS: d" ++ toString i ++ " emptied.\n")
    else if p.length ≠ DISPLAY_IMG_BYTE_LEN then
      ({ sl with active := false }, "ERROR: d" ++ toString i ++ " invalid length.\n")
    else
      (⟨p, true, now⟩, "SUCCESS: d" ++ toString i ++ " updated.\n")

/-- `HandleDisplayUpload` (source lines 521-544).  The source loop iterates
`i = 0 .. 19`; iteration `i` reads and writes only `dimg[i]` and appends its
own line to the response, so the loop is rendered pointwise over the slots
with the response lines joined in index order. -/
def HandleDisplayUpload (now : ℕ) (args : ℕ → Option (List ℕ)) (s : S) :
    S × (ℕ × String × String) :=
  ({ s with dimg := fun i =>
        if i < MAX_DISPLAY_IMG then (processSlot now i (args i) (s.dimg i)).1 else s.dimg i },
   (200, "text/html",
    "Screen Update Results:\n"
      ++ String.join ((List.range MAX_DISPLAY_IMG).map
          (fun i => (processSlot now i (args i) (s.dimg i)).2))))

/-- The optional form fields consumed by `HandleDisplaySet`. -/
structure SetArgs where
  watt : Option String
  wattavg : Option String
  water : Option String
  watertoday : Option String
  garage : Option String
  garagetime : Option String
  oledInterval : Option String

/-- C `isspace` on the chars that matter for `atoi`. -/
def isSpaceChar (c : Char) : Bool :=
  c = ' ' || c = '\t' || c = '\n' || c = '\r' || c = '\x0B' || c = '\x0C'

def digitsVal : List Char → ℕ → ℕ
  | [], acc => acc
  | c :: cs, acc => if c.isDigit then digitsVal cs (10 * acc + (c.toNat - 48)) else acc

/-- C `atoi`: skip whitespace, optional sign, then a decimal-digit prefix
(0 when no digits follow). -/
def atoi (s : String) : ℤ :=
  match s.data.dropWhile isSpaceChar with
  | '-' :: cs => -(digitsVal cs 0 : ℤ)
  | '+' :: cs => (digitsVal cs 0 : ℤ)
  | cs => (digitsVal cs 0 : ℤ)

/-- `HandleDisplaySet` (source lines 546-570): stamp `display_last_set`
unconditionally, overwrite each stored field whose form argument is present,
parse a present `oledInterval` with `atoi` (stored into the `unsigned int`
interval), and answer 200 "Thank you.\n". -/
def HandleDisplaySet (now : ℕ) (a : SetArgs) (s : S) : S × (ℕ × String × String) :=
  let s0 := { s with display_last_set := now }
  let s1 := match a.watt with
    | some v => { s0 with custom_watt := v }
    | none => s0
  let s2 := match a.wattavg with
    | some v => { s1 with custom_wattavg := v }
    | none => s1
  let s3 := match a.water with
    | some v => { s2 with custom_water := v }
    | none => s2
  let s4 := match a.watertoday with
    | some v => { s3 with custom_watertoday := v }
    | none => s3
  let s5 := match a.garage with
    | some v => { s4 with custom_garage := v }
    | none => s4
  let s6 := match a.garagetime with
    | some v => { s5 with custom_garagetime := v }
    | none => s5
  let s7 := match a.oledInterval with
    | some v => { s6 with oledInterval := intToU32 (atoi v) }
    | none => s6
  (s7, (200, "text/html", "Thank you.\n"))

/-- Claim C4: for each slot index i < 20, the upload handler treats slot i
according to its own payload only: an absent field leaves the slot unchanged;
an empty payload deactivates it, leaves its bytes and timestamp unchanged, and
a success line for d<i> appears in the response; a wrong-length payload
deactivates it, copies no bytes, and an error line for d<i> appears in the
response, with every other slot still processed from its own argument; a
1024-byte payload is copied in, the slot is activated with last_updated = now,
and a success line appears. -/
theorem HandleDisplayUpload_slots (now : ℕ) (args : ℕ → Option (List ℕ)) (s : S)
    (i : ℕ) (hi : i < MAX_DISPLAY_IMG) :
    ((HandleDisplayUpload now args s).1.dimg i = (processSlot now i (args i) (s.dimg i)).1) ∧
    (args i = none → (HandleDisplayUpload now args s).1.dimg i = s.dimg i) ∧
    (∀ p, args i = some p → p.length = 0 →
      (HandleDisplayUpload now args s).1.dimg i = { s.dimg i with active := false } ∧
      ("SUCCESS: d" ++ toString i ++ " emptied.\n")
        ∈ (List.range MAX_DISPLAY_IMG).map
            (fun j => (processSlot now j (args j) (s.dimg j)).2)) ∧
    (∀ p, args i = some p → p.length ≠ 0 → p.length ≠ DISPLAY_IMG_BYTE_LEN →
      (HandleDisplayUpload now args s).1.dimg i = { s.dimg i with active := false } ∧
      ("ERROR: d" ++ toString i ++ " invalid length.\n")
        ∈ (List.range MAX_DISPLAY_IMG).map
            (fun j => (processSlot now j (args j) (s.dimg j)).2)) ∧
    (∀ p, args i = some p → p.length = DISPLAY_IMG_BYTE_LEN →
      (HandleDisplayUpload now args s).1.dimg i = ⟨p, true, now⟩ ∧
      ("SUCCESS: d" ++ toString i ++ " updated.\n")
        ∈ (List.range MAX_DISPLAY_IMG).map
            (fun j => (processSlot now j (args j) (s.dimg j)).2)) := by
  have hdimg : (HandleDisplayUpload now args s).1.dimg i
      = (processSlot now i (args i) (s.dimg i)).1 := by
    simp [HandleDisplayUpload, hi]
  refine ⟨hdimg, ?_, ?_, ?_, ?_⟩
  · intro hnone
    rw [hdimg, hnone, processSlot]
  · intro p hp hlen
    refine ⟨by rw [hdimg, hp]; simp [processSlot, hlen], ?_⟩
    exact List.mem_map.mpr ⟨i, List.mem_range.mpr hi, by rw [hp]; simp [processSlot, hlen]⟩
  · intro p hp hlen hlen2
    refine ⟨by rw [hdimg, hp]; simp [processSlot, hlen, hlen2], ?_⟩
    exact List.mem_map.mpr ⟨i, List.mem_range.mpr hi,
      by rw [hp]; simp [processSlot, hlen, hlen2]⟩
  · intro p hp hlen
    have hne : p.length ≠ 0 := by
      rw [hlen]
      norm_num [DISPLAY_IMG_BYTE_LEN]
    refine ⟨by rw [hdimg, hp]; simp [processSlot, hne, hlen, DISPLAY_IMG_BYTE_LEN], ?_⟩
    exact List.mem_map.mpr ⟨i, List.mem_range.mpr hi,
      by rw [hp]; simp [processSlot, hne, hlen, DISPLAY_IMG_BYTE_LEN]⟩

theorem HandleDisplayUpload_slots_witness :
    (HandleDisplayUpload 7 (fun j => if j = 0 then some [] else none) sC3).1.dimg 0
      = { sC3.dimg 0 with active := false } :=
  ((HandleDisplayUpload_slots 7 (fun j => if j = 0 then some [] else none) sC3 0
      (by decide)).2.2.1 [] rfl rfl).1

/-- Claim C8: a POST to /setscreen2 overwrites exactly the stored fields whose
form argument is present (absent fields keep their prior values), parses a
present oledInterval and stores it, stamps display_last_set = now
unconditionally, answers 200 "Thank you.\n", leaves the rest of the state
untouched, and on the spec's example — watt:="5" at now=100 then wattavg:="6"
at now=200 — ends with watt = "5", wattavg = "6", last_set = 200. -/
theorem HandleDisplaySet_spec (now : ℕ) (a : SetArgs) (s : S) :
    ((HandleDisplaySet now a s).1.custom_watt = a.watt.getD s.custom_watt) ∧
    ((HandleDisplaySet now a s).1.custom_wattavg = a.wattavg.getD s.custom_wattavg) ∧
    ((HandleDisplaySet now a s).1.custom_water = a.water.getD s.custom_water) ∧
    ((HandleDisplaySet now a s).1.custom_watertoday = a.watertoday.getD s.custom_watertoday) ∧
    ((HandleDisplaySet now a s).1.custom_garage = a.garage.getD s.custom_garage) ∧
    ((HandleDisplaySet now a s).1.custom_garagetime = a.garagetime.getD s.custom_garagetime) ∧
    ((HandleDisplaySet now a s).1.oledInterval
        = (a.oledInterval.map (fun v => intToU32 (atoi v))).getD s.oledInterval) ∧
    ((HandleDisplaySet now a s).1.display_last_set = now) ∧
    ((HandleDisplaySet now a s).2 = (200, "text/html", "Thank you.\n")) ∧
    ((HandleDisplaySet now a s).1.dimg = s.dimg) ∧
    ((HandleDisplaySet now a s).1.displayActive = s.displayActive) ∧
    ((HandleDisplaySet now a s).1.displayCycle = s.displayCycle) ∧
    ((HandleDisplaySet now a s).1.previousOled = s.previousOled) ∧
    (∀ s0 : S,
      ((HandleDisplaySet 200 ⟨none, some "6", none, none, none, none, none⟩
          (HandleDisplaySet 100 ⟨some "5", none, none, none, none, none, none⟩
            s0).1).1.custom_watt = "5" ∧
       (HandleDisplaySet 200 ⟨none, some "6", none, none, none, none, none⟩
          (HandleDisplaySet 100 ⟨some "5", none, none, none, none, none, none⟩
            s0).1).1.custom_wattavg = "6" ∧
       (HandleDisplaySet 200 ⟨none, some "6", none, none, none, none, none⟩
          (HandleDisplaySet 100 ⟨some "5", none, none, none, none, none, none⟩
            s0).1).1.display_last_set = 200)) := by
  obtain ⟨w, wa, wt, wtd, g, gt, oi⟩ := a
  refine ⟨?_, ?_, ?_, ?_, ?_, ?_, ?_, ?_, ?_, ?_, ?_, ?_, ?_, ?_⟩ <;>
    first
      | (intro s0; refine ⟨?_, ?_, ?_⟩ <;> simp [HandleDisplaySet])
      | (cases w <;> cases wa <;> cases wt <;> cases wtd <;> cases g <;> cases gt <;>
          cases oi <;> simp [HandleDisplaySet])

-- ---------------------------------------------------------------------------
-- Claim C10: the slot cursor stays in bounds over every execution
-- ---------------------------------------------------------------------------

/-- One externally triggered step of the firmware: a display tick of the main
loop, or one of the two POST handlers dispatched by the web server. -/
inductive Ev where
  | tick : ℕ → Ev
  | upload : ℕ → (ℕ → Option (List ℕ)) → Ev
  | setreq : ℕ → SetArgs → Ev

def stepEv (s : S) (e : Ev) : S :=
  match e with
  | .tick now => (updateOLED now s).1
  | .upload now args => (HandleDisplayUpload now args s).1
  | .setreq now a => (HandleDisplaySet now a s).1

/-- The zero-initialized global state of the sketch at boot. -/
def initS : S :=
  ⟨fun _ => ⟨List.replicate DISPLAY_IMG_BYTE_LEN 0, false, 0⟩,
   0, 0, 0, 0, 5000, "", "", "", "", "", ""⟩

/-- The state after an arbitrary sequence of loop ticks and HTTP requests. -/
def run (evs : List Ev) : S := evs.foldl stepEv initS

theorem updateOLED_cursor (now : ℕ) (s : S) (h : s.displayActive < MAX_DISPLAY_IMG) :
    (updateOLED now s).1.displayActive < MAX_DISPLAY_IMG := by
  rw [updateOLED]
  split_ifs with hf
  · have h13 := scanLoop_cursor_lt
      s.dimg now s.displayActive
    unfold tickFired phase2 phase0
    split_ifs <;>
      · simp only []
        unfold phase13
        split_ifs with hc
        · rcases hs : scanLoop s.dimg now s.displayActive MAX_DISPLAY_IMG with ⟨c, jopt⟩
          have hclt : c < MAX_DISPLAY_IMG := by
            have := scanLoop_cursor_lt s.dimg now s.displayActive
            rw [hs] at this
            exact this
          rcases jopt with _ | j <;> simp [hs, hclt]
        · simpa using h
  · simpa using h

theorem stepEv_cursor (s : S) (e : Ev) (h : s.displayActive < MAX_DISPLAY_IMG) :
    (stepEv s e).displayActive < MAX_DISPLAY_IMG := by
  rcases e with now | ⟨now, args⟩ | ⟨now, a⟩
  · exact updateOLED_cursor now s h
  · simpa [stepEv, HandleDisplayUpload] using h
  · obtain ⟨w, wa, wt, wtd, g, gt, oi⟩ := a
    simp only [stepEv]
    cases w <;> cases wa <;> cases wt <;> cases wtd <;> cases g <;> cases gt <;> cases oi <;>
      simpa [HandleDisplaySet] using h

theorem updateOLED_custom_index (now : ℕ) (s : S) (i : ℕ)
    (h : Render.custom i ∈ (updateOLED now s).2) : i < MAX_DISPLAY_IMG := by
  rw [updateOLED] at h
  split_ifs at h with hf
  · rw [tickFired] at h
    simp only [List.mem_append] at h
    rcases h with (h | h) | h
    · rw [phase13] at h
      split_ifs at h with hc
      · rcases hs : scanLoop
            ({ s with previousOled := (s.previousOled + s.oledInterval) % U32,
                      displayCycle := (s.displayCycle + 1) % 4 } : S).dimg now
            ({ s with previousOled := (s.previousOled + s.oledInterval) % U32,
                      displayCycle := (s.displayCycle + 1) % 4 } : S).displayActive
            MAX_DISPLAY_IMG with ⟨c, jopt⟩
        rw [hs] at h
        rcases jopt with _ | j
        · simp at h
        · simp only [List.mem_singleton, Render.custom.injEq] at h
          obtain ⟨-, hj, -, -⟩ := scanLoop_found _ now _ c j hs
          omega
      · simp at h
    · rw [phase2] at h
      split_ifs at h <;> simp at h
    · rw [phase0] at h
      split_ifs at h <;> simp at h
  · simp at h

/-- Claim C10: after any sequence of loop ticks and HTTP requests from the
boot state, the slot cursor displayActive lies in [0, 20), and the index of
every custom-bitmap render a further tick performs (the index the source
passes to drawCustomScreen, i.e. the value of dimg[displayActive] accesses)
is in bounds as well. -/
theorem displayActive_in_bounds (evs : List Ev) :
    (run evs).displayActive < MAX_DISPLAY_IMG ∧
    (∀ now i, Render.custom i ∈ (updateOLED now (run evs)).2 → i < MAX_DISPLAY_IMG) := by
  constructor
  · have hrun : ∀ s : S, s.displayActive < MAX_DISPLAY_IMG →
        (evs.foldl stepEv s).displayActive < MAX_DISPLAY_IMG := by
      induction evs with
      | nil => intro s hs; exact hs
      | cons e t ih =>
        intro s hs
        exact ih _ (stepEv_cursor s e hs)
    exact hrun initS (by norm_num [initS, MAX_DISPLAY_IMG])
  · intro now i h
    exact updateOLED_custom_index now (run evs) i h

set_option maxRecDepth 100000 in
theorem displayActive_in_bounds_witness :
    (run []).displayActive < MAX_DISPLAY_IMG ∧ (0 : ℕ) < MAX_DISPLAY_IMG :=
  ⟨(displayActive_in_bounds []).1,
   (displayActive_in_bounds [Ev.upload 0 (fun j => if j = 0
        then some (List.replicate DISPLAY_IMG_BYTE_LEN 0) else none)]).2 5000 0
     (by decide)⟩

-- ---------------------------------------------------------------------------
-- Metrics serialization (source lines 444-519)
-- ---------------------------------------------------------------------------

/-- The identity label set prepended to every metric sample:
`{id="<deviceId>",mac="<mac>"} `. -/
def idStringOf (deviceId mac : String) : String :=
  "\x7bid=\"" ++ deviceId ++ "\",mac=\"" ++ mac ++ "\"\x7d "

/-- Arduino `String(float)` rendering with the default two decimal places,
used for the temperature sample. -/
def fmt2 (q : ℚ) : String :=
  let n : ℤ := round (q * 100)
  (if n < 0 then "-" else "") ++ toString (n.natAbs / 100) ++ "."
    ++ (if n.natAbs % 100 < 10 then "0" else "") ++ toString (n.natAbs % 100)

/-- One metric block of `GenerateMetrics`, carrying the sampled value it
prints.  The aqi and pm025 samples are emitted together under a single
condition in the source, so they form one block. -/
inductive MetricBlock where
  | aqiPm : ℤ → MetricBlock
  | nox : ℤ → MetricBlock
  | tvoc : ℤ → MetricBlock
  | rco2 : ℤ → MetricBlock
  | atmp : ℚ → MetricBlock
  | rhum : ℤ → MetricBlock
  | uptime : ℕ → MetricBlock
deriving DecidableEq

/-- The text a block contributes to the scrape output, copied verbatim from
the `message +=` sequences of the source. -/
def renderBlock (id : String) : MetricBlock → String
  | .aqiPm pm =>
    "# HELP aqi Particulate Matter AQI value\n# TYPE aqi gauge\naqi" ++ id
      ++ toString (PM_TO_AQI_US pm) ++ "\n"
      ++ "# HELP pm025 Particulate Matter PM2.5 value\n# TYPE pm025 gauge\npm025" ++ id
      ++ toString pm ++ "\n"
  | .nox v =>
    "# HELP nox Nitrogen Oxides (NOx) value\n# TYPE nox gauge\nnox" ++ id
      ++ toString v ++ "\n"
  | .tvoc v =>
    "# HELP tvoc Total volatile organic compounds (TVOC) value\n# TYPE tvoc gauge\ntvoc"
      ++ id ++ toString v ++ "\n"
  | .rco2 v =>
    "# HELP rco2 CO2 value, in ppm\n# TYPE rco2 gauge\nrco2" ++ id ++ toString v ++ "\n"
  | .atmp t =>
    "# HELP atmp Temperature, in degrees Fahrenheit\n# TYPE atmp gauge\natmp" ++ id
      ++ fmt2 t ++ "\n"
  | .rhum v =>
    "# HELP rhum Relative humidity, in percent\n# TYPE rhum gauge\nrhum" ++ id
      ++ toString v ++ "\n"
  | .uptime ms =>
    "# HELP uptimesec Seconds since boot\n# TYPE uptimesec gauge\nuptimesec" ++ id
      ++ toString (ms / 1000) ++ "\n"

/-- The sequence of blocks `GenerateMetrics` emits, one conditional block per
`if` of the source in source order, with the unconditional uptime line last. -/
def metricBlocks (hasPM hasCO2 hasSHT hasSGP41 : Bool)
    (pm25 NOX TVOC Co2 : ℤ) (tempf : ℚ) (hum : ℤ) (currentMillis : ℕ) : List MetricBlock :=
  (if hasPM && decide (0 ≤ pm25) then [MetricBlock.aqiPm pm25] else []) ++
  ((if hasSGP41 && decide (0 ≤ NOX) then [MetricBlock.nox NOX] else []) ++
   ((if hasSGP41 && decide (0 ≤ TVOC) then [MetricBlock.tvoc TVOC] else []) ++
    ((if hasCO2 && decide (0 ≤ Co2) then [MetricBlock.rco2 Co2] else []) ++
     ((if hasSHT && decide (0 ≤ tempf) then [MetricBlock.atmp tempf] else []) ++
      ((if hasSHT && decide (0 ≤ hum) then [MetricBlock.rhum hum] else []) ++
       [MetricBlock.uptime currentMillis])))))

/-- `GenerateMetrics` (source lines 444-519): the concatenation, in source
order, of the conditional blocks and the unconditional uptime block. -/
def GenerateMetrics (deviceId mac : String) (hasPM hasCO2 hasSHT hasSGP41 : Bool)
    (pm25 NOX TVOC Co2 : ℤ) (tempf : ℚ) (hum : ℤ) (currentMillis : ℕ) : String :=
  String.join
    ((metricBlocks hasPM hasCO2 hasSHT hasSGP41 pm25 NOX TVOC Co2 tempf hum
        currentMillis).map (renderBlock (idStringOf deviceId mac)))

theorem mem_ite_singleton {α : Type} (a b : α) (c : Prop) [Decidable c] :
    (a ∈ if c then [b] else []) ↔ (c ∧ a = b) := by
  split_ifs with h <;> simp [h]

theorem sublist_ite_cons {α : Type} (a : α) (l L : List α) (c : Prop) [Decidable c]
    (h : l.Sublist L) : ((if c then [a] else []) ++ l).Sublist (a :: L) := by
  split_ifs with hc
  · simpa using List.Sublist.cons₂ a h
  · simpa using List.Sublist.cons a h

/-- Claim C9: a quantity's metric block is emitted iff its capability flag is
set and its current value is non-negative (a negative sentinel suppresses the
whole block); the uptimesec block is always emitted; the blocks appear in the
fixed order aqi/pm025, nox, tvoc, rco2, atmp, rhum, uptimesec; and the scrape
output is the rendering of exactly these blocks. -/
theorem GenerateMetrics_blocks (deviceId mac : String) (hasPM hasCO2 hasSHT hasSGP41 : Bool)
    (pm25 NOX TVOC Co2 : ℤ) (tempf : ℚ) (hum : ℤ) (ms : ℕ) :
    (MetricBlock.aqiPm pm25 ∈ metricBlocks hasPM hasCO2 hasSHT hasSGP41 pm25 NOX TVOC Co2 tempf hum ms
        ↔ hasPM = true ∧ 0 ≤ pm25) ∧
    (MetricBlock.nox NOX ∈ metricBlocks hasPM hasCO2 hasSHT hasSGP41 pm25 NOX TVOC Co2 tempf hum ms
        ↔ hasSGP41 = true ∧ 0 ≤ NOX) ∧
    (MetricBlock.tvoc TVOC ∈ metricBlocks hasPM hasCO2 hasSHT hasSGP41 pm25 NOX TVOC Co2 tempf hum ms
        ↔ hasSGP41 = true ∧ 0 ≤ TVOC) ∧
    (MetricBlock.rco2 Co2 ∈ metricBlocks hasPM hasCO2 hasSHT hasSGP41 pm25 NOX TVOC Co2 tempf hum ms
        ↔ hasCO2 = true ∧ 0 ≤ Co2) ∧
    (MetricBlock.atmp tempf ∈ metricBlocks hasPM hasCO2 hasSHT hasSGP41 pm25 NOX TVOC Co2 tempf hum ms
        ↔ hasSHT = true ∧ 0 ≤ tempf) ∧
    (MetricBlock.rhum hum ∈ metricBlocks hasPM hasCO2 hasSHT hasSGP41 pm25 NOX TVOC Co2 tempf hum ms
        ↔ hasSHT = true ∧ 0 ≤ hum) ∧
    (MetricBlock.uptime ms ∈ metricBlocks hasPM hasCO2 hasSHT hasSGP41 pm25 NOX TVOC Co2 tempf hum ms) ∧
    (metricBlocks hasPM hasCO2 hasSHT hasSGP41 pm25 NOX TVOC Co2 tempf hum ms).Sublist
      [MetricBlock.aqiPm pm25, MetricBlock.nox NOX, MetricBlock.tvoc TVOC,
       MetricBlock.rco2 Co2, MetricBlock.atmp tempf, MetricBlock.rhum hum,
       MetricBlock.uptime ms] ∧
    (GenerateMetrics deviceId mac hasPM hasCO2 hasSHT hasSGP41 pm25 NOX TVOC Co2 tempf hum ms
      = String.join
          ((metricBlocks hasPM hasCO2 hasSHT hasSGP41 pm25 NOX TVOC Co2 tempf hum ms).map
            (renderBlock (idStringOf deviceId mac)))) := by
  refine ⟨?_, ?_, ?_, ?_, ?_, ?_, ?_, ?_, rfl⟩
  · simp [metricBlocks, List.mem_append, mem_ite_singleton]
  · simp [metricBlocks, List.mem_append, mem_ite_singleton]
  · simp [metricBlocks, List.mem_append, mem_ite_singleton]
  · simp [metricBlocks, List.mem_append, mem_ite_singleton]
  · simp [metricBlocks, List.mem_append, mem_ite_singleton]
  · simp [metricBlocks, List.mem_append, mem_ite_singleton]
  · simp [metricBlocks, List.mem_append, mem_ite_singleton]
  · unfold metricBlocks
    refine sublist_ite_cons _ _ _ _ ?_
    refine sublist_ite_cons _ _ _ _ ?_
    refine sublist_ite_cons _ _ _ _ ?_
    refine sublist_ite_cons _ _ _ _ ?_
    refine sublist_ite_cons _ _ _ _ ?_
    refine sublist_ite_cons _ _ _ _ ?_
    exact List.Sublist.refl _
